import Mathlib

/-!
# Verification of the video-statistics question-answering pipeline

A shallow embedding, in Lean 4, of the natural-language-to-SQL pipeline of
`LLM/LLM_manager.py` (class `VideoDatabaseAnalyzer`), together with the
store schema declared in `database/database_settings.py`.

The embedding mirrors the Python source operation by operation:

* Python string primitives (`str.strip`, `str.split('\n\n')`, `str.lower`,
  `str.startswith`, substring membership, `str.replace`) are modelled as
  executable functions on `List Char`, wrapped at `String` type.
* The Gemini call and the SQLite engine are the two external collaborators;
  they enter the model as explicit oracles (`Except`-valued parameters), so
  every claim about the pipeline quantifies over their behaviour.
* `sqlite3` machine values are modelled by `SqlValue` (NULL, INTEGER, TEXT);
  a fetched row is a first column plus the remaining columns, which is the
  shape every SQL result row has.

Definitions come first, then the lemmas and the claim theorems.
-/

deriving instance DecidableEq for Except

namespace VideoBot

/-! ## Python string primitives on `List Char` -/

/-- The ASCII whitespace characters that Python's `str.strip()` removes. -/
def pyWs (c : Char) : Bool :=
  c = ' ' || c = '\t' || c = '\n' || c = '\r' || c = '\x0b' || c = '\x0c'

/-- `str.strip()` on a character list: drop whitespace from both ends. -/
def pyStripList (l : List Char) : List Char :=
  ((l.dropWhile pyWs).reverse.dropWhile pyWs).reverse

/-- `str.strip()` at `String` type. -/
def pyStripS (s : String) : String :=
  (pyStripList s.toList).asString

/-- Worker for `str.split('\n\n')`: `acc` holds the current segment reversed.
Occurrences of the separator are consumed left to right, non-overlapping,
exactly as Python's `str.split` with an explicit separator does. -/
def pySplitNNAux : List Char → List Char → List (List Char)
  | acc, '\n' :: '\n' :: rest => acc.reverse :: pySplitNNAux [] rest
  | acc, c :: rest => pySplitNNAux (c :: acc) rest
  | acc, [] => [acc.reverse]

/-- `str.split('\n\n')` on a character list. -/
def pySplitNN (l : List Char) : List (List Char) :=
  pySplitNNAux [] l

/-- `str.split('\n\n')` at `String` type. -/
def pySplitS (s : String) : List String :=
  (pySplitNN s.toList).map List.asString

/-- ASCII lowercasing of one character, as Python's `str.lower` acts on the
ASCII range (the pipeline's validator only compares against ASCII text). -/
def asciiLowerChar (c : Char) : Char :=
  if 'A' ≤ c ∧ c ≤ 'Z' then Char.ofNat (c.toNat + 32) else c

/-- `str.lower()` at `String` type. -/
def pyLowerS (s : String) : String :=
  (s.toList.map asciiLowerChar).asString

/-- `str.startswith(pre)`. -/
def pyStartsWith (s pre : String) : Bool :=
  pre.toList.isPrefixOf s.toList

/-- Substring membership (`pat in s`) on character lists. -/
def containsSub : List Char → List Char → Bool
  | [], pat => pat.isEmpty
  | c :: t, pat => pat.isPrefixOf (c :: t) || containsSub t pat

/-- Substring membership (`pat in s`) at `String` type. -/
def containsSubS (s pat : String) : Bool :=
  containsSub s.toList pat.toList

/-! ## Decimal rendering and the thousands formatter

`_format_answer` renders an integer with `str(result)` when it is below
1000 and with `f"{result:,}".replace(",", " ")` otherwise.  The decimal
digits are produced by a fuel-indexed worker so that every definition
reduces inside the kernel. -/

/-- The character of one decimal digit. -/
def decDigit (d : Nat) : Char :=
  Char.ofNat (48 + d)

/-- Decimal digits of a natural number, least significant first.
`fuel` only drives the recursion; `natDecRev` always supplies enough. -/
def natDecRevAux : Nat → Nat → List Char
  | 0, _ => []
  | fuel + 1, n =>
    if n < 10 then [decDigit n] else decDigit (n % 10) :: natDecRevAux fuel (n / 10)

/-- Decimal digits of a natural number, least significant first. -/
def natDecRev (n : Nat) : List Char :=
  natDecRevAux (n + 1) n

/-- Python's `str` on an integer: sign, then the decimal digits. -/
def intDec (n : Int) : String :=
  (if n < 0 then "-" else "") ++ (natDecRev n.natAbs).reverse.asString

/-- Insert `','` after every third digit of a least-significant-first digit
list, exactly where `f"{n:,}"` puts the separators. -/
def digitsGroupedRev : List Char → List Char
  | d1 :: d2 :: d3 :: d4 :: rest => d1 :: d2 :: d3 :: ',' :: digitsGroupedRev (d4 :: rest)
  | l => l

/-- `f"{n:,}"` for an integer: sign, then comma-grouped decimal digits. -/
def pyCommaFormat (n : Int) : String :=
  (if n < 0 then "-" else "") ++ (digitsGroupedRev (natDecRev n.natAbs)).reverse.asString

/-- The character substitution performed by `.replace(",", " ")`. -/
def commaToSpace (c : Char) : Char :=
  if c = ',' then ' ' else c

/-! ## SQL values and `_format_answer`

A sqlite REAL reaches `_format_answer` as a Python float, and every
observation the formatter makes of it — the comparison with 1000, `str`,
and `f"{x:,}"` — is determined by the plain decimal text Python renders
for it (sign, integer part, fractional digits).  `PyFloat` carries that
decimal directly; floats whose rendering switches to exponent notation
(magnitude at least 1e16) are outside the model.  IEEE bit-level
behaviour is not modelled: the decimal is the interface the formatter
sees. -/

/-- A Python float as the formatter observes it: sign, integer part, and
the fractional digits of its rendering (a genuine float always renders
with at least one fractional digit, e.g. `"125.0"`). -/
structure PyFloat where
  neg : Bool
  intPart : Nat
  frac : String
deriving DecidableEq

/-- `str(x)` for a float: sign, integer digits, point, fractional digits. -/
def pyFloatStr (f : PyFloat) : String :=
  (if f.neg then "-" else "") ++ (natDecRev f.intPart).reverse.asString ++ "." ++ f.frac

/-- `f"{x:,}"` for a float: the integer part is comma-grouped, the
fractional digits are untouched. -/
def pyFloatComma (f : PyFloat) : String :=
  (if f.neg then "-" else "")
    ++ (digitsGroupedRev (natDecRev f.intPart)).reverse.asString ++ "." ++ f.frac

/-- `x >= 1000` for a float: non-negative with integer part at least 1000
(the fractional part is below one, so it cannot tip the comparison). -/
def pyFloatGe1000 (f : PyFloat) : Bool :=
  !f.neg && decide (1000 ≤ f.intPart)

/-- A scalar coming back from the sqlite engine: NULL, INTEGER, REAL or
TEXT. -/
inductive SqlValue where
  | null
  | int (n : Int)
  | real (f : PyFloat)
  | text (s : String)
deriving DecidableEq

/-- `_format_answer` (LLM_manager.py line 335): `None` becomes the localized
no-data string; a numeric value (`isinstance(result, (int, float))`) at
least 1000 is comma-grouped by `f"{result:,}"` and the commas replaced by
spaces, a smaller numeric value is `str(result)`; any other scalar is
`str(result)`. -/
def formatAnswer : SqlValue → String
  | .null => "Данные не найдены"
  | .int n =>
      if 1000 ≤ n then ((pyCommaFormat n).toList.map commaToSpace).asString
      else intDec n
  | .real f =>
      if pyFloatGe1000 f then ((pyFloatComma f).toList.map commaToSpace).asString
      else pyFloatStr f
  | .text s => s

/-! ## Spec-side formulation of thousands grouping

`specThousandsPos` follows the specification's words — "rendered with a
space as the thousands separator": the decimal digits are cut into groups
of three from the right and the groups joined by single spaces.  It is
deliberately built by a different recursion than `pyCommaFormat`, to be
compared with it. -/

/-- Cut a least-significant-first digit list into groups of three. -/
def chunk3 : List Char → List (List Char)
  | [] => []
  | [a] => [[a]]
  | [a, b] => [[a, b]]
  | a :: b :: c :: rest => [a, b, c] :: chunk3 rest

/-- Join character groups with single spaces. -/
def joinSpace : List (List Char) → List Char
  | [] => []
  | [g] => g
  | g :: g2 :: gs => g ++ ' ' :: joinSpace (g2 :: gs)

/-- Modelled from the spec: a positive value "rendered with a space as the
thousands separator" — digit groups of three from the right, space-joined. -/
def specThousandsPos (n : Nat) : String :=
  ((joinSpace (chunk3 (natDecRev n))).reverse).asString

/-- Modelled from the spec, for a positive float: the integer part with a
space as the thousands separator, the fractional digits unchanged. -/
def specThousandsPosReal (f : PyFloat) : String :=
  ((joinSpace (chunk3 (natDecRev f.intPart))).reverse).asString ++ "." ++ f.frac

/-! ## The request pipeline (`generate_sql_and_answer`)

The two errors the pipeline itself raises are the `ValueError`s of
lines 289 and 302; a generation failure or an engine error arrives from an
oracle carrying its own message, as `str(e)` does in the `except` clause. -/

/-- The error kinds a request can end in. -/
inductive PipeError where
  | notSelect
  | malformed
deriving DecidableEq

/-- `str(e)` of the two `ValueError`s raised by the pipeline. -/
def PipeError.message : PipeError → String
  | .notSelect => "Сгенерирован не SELECT запрос"
  | .malformed => "Неверный формат ответа от LLM"

/-- The dictionary `generate_sql_and_answer` returns.  In the failure
dictionary the keys `llm_suggested_answer` and `actual_result` are absent
and `sql_query` is `None`; absence is modelled by `none`. -/
structure GenerationResult where
  success : Bool
  sql_query : Option String
  llm_suggested_answer : Option String
  actual_result : Option SqlValue
  final_answer : String
  error : Option String
deriving DecidableEq

/-- The failure dictionary of lines 306-311: uniform user-facing message,
`str(e)` under `error`. -/
def failureResult (msg : String) : GenerationResult :=
  { success := false
    sql_query := none
    llm_suggested_answer := none
    actual_result := none
    final_answer := "Не удалось обработать запрос. Попробуйте сформулировать иначе."
    error := some msg }

/-- The shallow validation of lines 286-288 applied to the lowered
candidate: it must begin with `"select "` and contain `"from "`. -/
def isSelectShape (lowered : String) : Bool :=
  pyStartsWith lowered "select " && containsSubS lowered "from "

/-- Lines 276-289: strip the model output, split it on blank lines, require
at least two segments, strip segment one as the SQL and segment two as the
suggested answer, and validate the SQL's shape. -/
def parseAndValidate (rawText : String) : Except PipeError (String × String) :=
  match pySplitS (pyStripS rawText) with
  | p0 :: p1 :: _ =>
      let sql := pyStripS p0
      if isSelectShape (pyLowerS sql) then .ok (sql, pyStripS p1)
      else .error .notSelect
  | _ => .error .malformed

/-- One row fetched by `sqlite3.Row`: the first column and the rest.  SQL
result rows always carry at least one column. -/
abbrev SqlRow := SqlValue × List SqlValue

/-- `result[0]` of `fetchone()`: the first column of the first row, or NULL
when the result set is empty. -/
def firstScalar : List SqlRow → SqlValue
  | [] => .null
  | row :: _ => row.1

/-- `_execute_sql_query` (lines 313-329) over an engine oracle `runQuery`:
run the statement, fetch one row, extract its first column; an engine
error is re-raised with its own message. -/
def executeSqlQuery (runQuery : String → Except String (List SqlRow))
    (sql : String) : Except String SqlValue :=
  match runQuery sql with
  | .error m => .error m
  | .ok rows => .ok (firstScalar rows)

/-- `generate_sql_and_answer` (lines 258-311) over the two oracles: `llm`
is the stripped-of-nothing raw text of the Gemini call (or its failure),
`runQuery` the sqlite engine.  The second component records which
statements were executed against the store during the request. -/
def generateSqlAndAnswer (llm : Except String String)
    (runQuery : String → Except String (List SqlRow)) :
    GenerationResult × List String :=
  match llm with
  | .error m => (failureResult m, [])
  | .ok text =>
    match parseAndValidate text with
    | .error e => (failureResult e.message, [])
    | .ok (sql, ans) =>
      match executeSqlQuery runQuery sql with
      | .error m => (failureResult m, [sql])
      | .ok actual =>
          ({ success := true
             sql_query := some sql
             llm_suggested_answer := some ans
             actual_result := some actual
             final_answer := formatAnswer actual
             error := none }, [sql])

/-! ## Schema introspection (`_get_database_schema`)

The store enters as an oracle whose operations can fail, mirroring the one
`try` block that wraps connecting, listing tables, `PRAGMA table_info`,
and the row counts.  `_get_sample_data` has its own `try` returning `[]`,
so its oracle is total.  A failure anywhere aborts the block and the
`except` clause returns the schema accumulated so far. -/

/-- One row of `PRAGMA table_info`: name, declared type, NOT NULL flag,
primary-key flag (the `cid` and default are unused by the source). -/
structure StoreCol where
  name : String
  declType : String
  notnull : Bool
  pk : Bool
deriving DecidableEq

/-- A sample row as `_get_sample_data` returns it: column-name/value pairs. -/
abbrev SampleRow := List (String × SqlValue)

/-- The relational store as the introspector sees it. -/
structure Store where
  listTables : Except String (List String)
  tableInfo : String → Except String (List StoreCol)
  rowCount : String → Except String Nat
  sampleData : String → List SampleRow

/-- One element of a table's `columns` list (lines 77-83). -/
structure ColumnEntry where
  name : String
  declType : String
  primary_key : Bool
  nullable : Bool
  description : String
deriving DecidableEq

/-- One value of the `schema["tables"]` dictionary. -/
structure TableEntry where
  columns : List ColumnEntry
  description : String
deriving DecidableEq

/-- One value of the `schema["statistics"]` dictionary. -/
structure StatEntry where
  row_count : Nat
  sample_data : List SampleRow
deriving DecidableEq

/-- The `schema` dictionary: insertion-ordered tables and statistics;
`relationships` is created empty and never filled. -/
structure DbSchema where
  tables : List (String × TableEntry)
  relationships : List String
  statistics : List (String × StatEntry)
deriving DecidableEq

/-- The `schema` value as initialised on lines 50-54. -/
def emptySchema : DbSchema :=
  { tables := [], relationships := [], statistics := [] }

/-- `_get_table_description`: the static per-table texts (condensed to one
line each); unknown tables get the generic placeholder. -/
def tableDescription (t : String) : String :=
  if t = "videos" then
    "Основная таблица с видео. Содержит информацию о загруженных видео, их статистику и метаданные."
  else if t = "snapshots" then
    "Таблица снапшотов (снимков статистики) видео. Каждый снапшот фиксирует состояние статистики видео в определённый момент времени. Связь с videos через video_id."
  else "Таблица без описания"

/-- `_get_column_description`: the static per-column texts; unknown columns
get the generic placeholder. -/
def columnDescription (t c : String) : String :=
  if t = "videos" ∧ c = "video_id" then "Уникальный идентификатор видео (UUID)"
  else if t = "videos" ∧ c = "views_count" then "Общее количество просмотров видео (целое число)"
  else if t = "videos" ∧ c = "likes_count" then "Общее количество лайков видео (целое число)"
  else if t = "videos" ∧ c = "comments_count" then "Общее количество комментариев под видео (целое число)"
  else if t = "videos" ∧ c = "reports_count" then "Количество жалоб на видео (целое число)"
  else if t = "videos" ∧ c = "creator_id" then "Идентификатор создателя видео"
  else if t = "videos" ∧ c = "video_created_at" then "Дата и время создания видео на платформе (DATETIME)"
  else if t = "snapshots" ∧ c = "delta_views_count" then "Прирост просмотров между снапшотами (может быть положительным или отрицательным)"
  else if t = "snapshots" ∧ c = "delta_likes_count" then "Прирост лайков между снапшотами"
  else if t = "snapshots" ∧ c = "delta_comments_count" then "Прирост комментариев между снапшотами"
  else if t = "snapshots" ∧ c = "delta_reports_count" then "Прирост жалоб между снапшотами"
  else if t = "snapshots" ∧ c = "created_at" then "Дата и время создания снапшота (DATETIME)"
  else "Колонка без описания"

/-- Lines 77-83: one `PRAGMA` row becomes one column entry;
`nullable` is `not bool(notnull)`. -/
def mkColumnEntry (t : String) (col : StoreCol) : ColumnEntry :=
  { name := col.name
    declType := col.declType
    primary_key := col.pk
    nullable := !col.notnull
    description := columnDescription t col.name }

/-- The table loop of lines 64-83.  The entry with empty `columns` is
installed before `PRAGMA table_info` runs, so a `PRAGMA` failure leaves
that entry behind and aborts the block (`false` = aborted). -/
def buildTablesAcc (store : Store) :
    List String → List (String × TableEntry) → List (String × TableEntry) × Bool
  | [], acc => (acc, true)
  | t :: ts, acc =>
      let bare : TableEntry := { columns := [], description := tableDescription t }
      match store.tableInfo t with
      | .error _ => (acc ++ [(t, bare)], false)
      | .ok cols =>
          buildTablesAcc store ts
            (acc ++ [(t, { columns := cols.map (mkColumnEntry t), description := tableDescription t })])

/-- The statistics loop of lines 86-92; a row-count failure aborts the
block with the statistics accumulated so far. -/
def buildStatsAcc (store : Store) :
    List String → List (String × StatEntry) → List (String × StatEntry) × Bool
  | [], acc => (acc, true)
  | t :: ts, acc =>
      match store.rowCount t with
      | .error _ => (acc, false)
      | .ok n =>
          buildStatsAcc store ts
            (acc ++ [(t, { row_count := n, sample_data := store.sampleData t })])

/-- Ordering `ORDER BY name` imposes on table names (byte order on the
ASCII names involved). -/
def charListLe : List Char → List Char → Bool
  | [], _ => true
  | _ :: _, [] => false
  | a :: as, b :: bs => if a < b then true else if a = b then charListLe as bs else false

/-- Insert one name into a name-sorted list. -/
def insertName (s : String) : List String → List String
  | [] => [s]
  | t :: ts => if charListLe s.toList t.toList then s :: t :: ts else t :: insertName s ts

/-- Sort table names ascending, as `ORDER BY name` does. -/
def sortNames : List String → List String
  | [] => []
  | s :: ss => insertName s (sortNames ss)

/-- `_get_database_schema` (lines 48-99): list the user tables ordered by
name, build the tables dictionary, then the statistics dictionary; any
failure is caught and the schema accumulated so far returned. -/
def getDatabaseSchema (store : Store) : DbSchema :=
  match store.listTables with
  | .error _ => emptySchema
  | .ok names =>
      match buildTablesAcc store (sortNames names) [] with
      | (tabs, false) => { tables := tabs, relationships := [], statistics := [] }
      | (tabs, true) =>
          { tables := tabs
            relationships := []
            statistics := (buildStatsAcc store (tabs.map Prod.fst) []).1 }

/-! ## Prompt construction (`_create_system_prompt`) -/

/-- Lines 170-175: one column line of the schema rendition — name, type,
a PRIMARY KEY marker, and the description when it is non-empty (Python's
`if col['description']:` is false on the empty string). -/
def renderColumn (col : ColumnEntry) : String :=
  "  - " ++ col.name ++ " (" ++ col.declType ++ ")"
    ++ (if col.primary_key then " [PRIMARY KEY]" else "")
    ++ (if col.description = "" then "" else ": " ++ col.description)
    ++ "\n"

/-- The `+=` accumulation the prompt builder runs over a rendered list. -/
def strConcat : List String → String
  | [] => ""
  | s :: ss => s ++ strConcat ss

/-- Lines 164-177: one table's block of the schema rendition. -/
def renderTable (t : String × TableEntry) : String :=
  "ТАБЛИЦА: " ++ t.1 ++ "\n"
    ++ "Описание: " ++ t.2.description ++ "\n"
    ++ "Колонки:\n"
    ++ strConcat (t.2.columns.map renderColumn)
    ++ "\n"

/-- Lines 162-177: the full schema rendition, table after table in the
order of the `tables` dictionary. -/
def schemaDescriptionOf (s : DbSchema) : String :=
  "СХЕМА БАЗЫ ДАННЫХ:\n\n" ++ strConcat (s.tables.map renderTable)

/-- The fixed few-shot example block (lines 180-218), condensed. -/
def examplesBlock : String :=
  "ПРИМЕРЫ ЗАПРОСОВ И ОТВЕТОВ: примеры вопросов, SQL-запросов и числовых ответов.\n"

/-- The fixed rule block (lines 230-246), condensed. -/
def rulesBlock : String :=
  "ВАЖНЫЕ ПРАВИЛА: использовать только описанные таблицы и колонки, функции дат, агрегации, одно число в ответе, BETWEEN для интервалов, скобки для сложных условий.\n"

/-- `_create_system_prompt` (lines 158-256): role statement, schema
rendition, examples, rules, and the reserved question placeholder. -/
def createSystemPrompt (s : DbSchema) : String :=
  "Ты — экспертный SQL-анализатор.\n"
    ++ schemaDescriptionOf s
    ++ examplesBlock
    ++ rulesBlock
    ++ "СТРУКТУРА ОТВЕТА: SQL-запрос, пустая строка, числовой ответ.\n"
    ++ "ВОПРОС ПОЛЬЗОВАТЕЛЯ: {user_question}\n"

/-- `VideoDatabaseAnalyzer.__init__` (lines 31-46): introspect once, then
render the prompt from the introspected schema.  A total function: the
analyzer is constructible against any store. -/
def analyzerInit (store : Store) : DbSchema × String :=
  let schema := getDatabaseSchema store
  (schema, createSystemPrompt schema)

/-! ## The concrete store of `database_settings.py`

`create_tables` declares `videos` first and `snapshots` second; the
columns appear here in declaration order with their `PRAGMA` flags. -/

/-- The `videos` columns of the `CREATE TABLE` on lines 17-29. -/
def videosCols : List StoreCol :=
  [ ⟨"video_id", "TEXT", false, true⟩,
    ⟨"video_created_at", "DATETIME", false, false⟩,
    ⟨"views_count", "INTEGER", false, false⟩,
    ⟨"likes_count", "INTEGER", false, false⟩,
    ⟨"reports_count", "INTEGER", false, false⟩,
    ⟨"comments_count", "INTEGER", false, false⟩,
    ⟨"creator_id", "TEXT", false, false⟩,
    ⟨"created_at", "DATETIME", false, false⟩,
    ⟨"updated_at", "DATETIME", false, false⟩ ]

/-- The `snapshots` columns of the `CREATE TABLE` on lines 33-49. -/
def snapshotsCols : List StoreCol :=
  [ ⟨"snapshot_id", "TEXT", false, true⟩,
    ⟨"video_id", "TEXT", false, false⟩,
    ⟨"views_count", "INTEGER", false, false⟩,
    ⟨"likes_count", "INTEGER", false, false⟩,
    ⟨"reports_count", "INTEGER", false, false⟩,
    ⟨"comments_count", "INTEGER", false, false⟩,
    ⟨"delta_views_count", "INTEGER", false, false⟩,
    ⟨"delta_likes_count", "INTEGER", false, false⟩,
    ⟨"delta_reports_count", "INTEGER", false, false⟩,
    ⟨"delta_comments_count", "INTEGER", false, false⟩,
    ⟨"created_at", "DATETIME", false, false⟩,
    ⟨"updated_at", "DATETIME", false, false⟩ ]

/-- The two tables in declaration order. -/
def declaredTables : List (String × List StoreCol) :=
  [("videos", videosCols), ("snapshots", snapshotsCols)]

/-- The populated store built by `database_settings.py`, with no rows. -/
def sqliteStore : Store :=
  { listTables := .ok (declaredTables.map Prod.fst)
    tableInfo := fun t =>
      match declaredTables.find? (fun p => p.1 == t) with
      | some p => .ok p.2
      | none => .error "no such table"
    rowCount := fun _ => .ok 0
    sampleData := fun _ => [] }

/-- A store every read of which fails, as when the database file cannot be
opened at all. -/
def missingStore : Store :=
  { listTables := .error "unable to open database file"
    tableInfo := fun _ => .error "unable to open database file"
    rowCount := fun _ => .error "unable to open database file"
    sampleData := fun _ => [] }

/-- A store that lists one table and describes it, but fails on the row
count: a mid-read failure inside the statistics loop. -/
def lockedMidReadStore : Store :=
  { listTables := .ok ["videos"]
    tableInfo := fun _ => .ok videosCols
    rowCount := fun _ => .error "database is locked"
    sampleData := fun _ => [] }

/-! ## Spec-side predicates the claims compare against -/

/-- Drop everything up to and including the first blank-line separator. -/
def dropThroughSep : List Char → List Char
  | '\n' :: '\n' :: rest => rest
  | _ :: rest => dropThroughSep rest
  | [] => []

/-- Modelled from the claim's words: "everything after the first blank-line
separator, trimmed" of the trimmed raw output. -/
def specSuggestedAnswer (raw : String) : String :=
  (pyStripList (dropThroughSep (pyStripList raw.toList))).asString

/-- `p` occurs as a contiguous substring of `s`. -/
def SubstrOf (p s : String) : Prop :=
  ∃ pre suf : String, s = pre ++ p ++ suf

/-- Well-formedness of an introspected schema: every statistics key names a
table of the tables dictionary. -/
def wellFormedSchema (s : DbSchema) : Prop :=
  ∀ k ∈ s.statistics.map Prod.fst, k ∈ s.tables.map Prod.fst

/-! ## Helper lemmas -/

theorem toList_asString (l : List Char) : (List.asString l).toList = l := rfl

theorem asString_toList (s : String) : s.toList.asString = s := rfl

theorem str_empty_append (s : String) : "" ++ s = s := rfl

theorem str_append_assoc (a b c : String) : a ++ b ++ c = a ++ (b ++ c) := by
  cases a
  cases b
  cases c
  show String.mk _ = String.mk _
  simp [String.append]

theorem toList_append (a b : String) : (a ++ b).toList = a.toList ++ b.toList := by
  cases a
  cases b
  rfl

theorem asString_append (l1 l2 : List Char) :
    (l1 ++ l2).asString = l1.asString ++ l2.asString := rfl

theorem isDigit_ne_comma {c : Char} (h : c.isDigit = true) : c ≠ ',' := by
  rintro rfl
  exact absurd h (by decide)

/-- When the stripped text holds no blank-line separator, the split worker
returns the single segment it accumulated. -/
theorem pySplitNNAux_no_sep (acc l : List Char) (h : containsSub l ['\n', '\n'] = false) :
    pySplitNNAux acc l = [acc.reverse ++ l] := by
  induction acc, l using pySplitNNAux.induct with
  | case1 acc rest ih =>
      exfalso
      simp [containsSub, List.isPrefixOf] at h
  | case2 acc c rest hne ih =>
      have hsub : containsSub rest ['\n', '\n'] = false := by
        simp only [containsSub, Bool.or_eq_false_iff] at h
        exact h.2
      rw [pySplitNNAux, ih hsub]
      · simp
      · exact hne
  | case3 acc => simp [pySplitNNAux]

/-- `str.split('\n\n')` of text with no blank-line separator is the text
itself, as its only segment. -/
theorem pySplitS_no_sep (s : String) (h : containsSubS s "\n\n" = false) :
    pySplitS s = [s] := by
  unfold pySplitS pySplitNN
  rw [pySplitNNAux_no_sep [] s.toList h]
  simp only [List.map_cons, List.map_nil, List.reverse_nil, List.nil_append]
  rw [asString_toList]

theorem commaToSpace_self {c : Char} (h : c ≠ ',') : commaToSpace c = c := by
  simp [commaToSpace, h]

theorem commaToSpace_comma : commaToSpace ',' = ' ' := rfl

theorem map_commaToSpace_self (l : List Char) (h : ∀ c ∈ l, c ≠ ',') :
    l.map commaToSpace = l := by
  induction l with
  | nil => rfl
  | cons c t ih =>
      simp only [List.map_cons, commaToSpace_self (h c (by simp))]
      rw [ih (fun x hx => h x (by simp [hx]))]

theorem decDigit_ne_comma (d : Nat) (h : d < 10) : decDigit d ≠ ',' := by
  interval_cases d <;> decide

theorem natDecRevAux_no_comma (fuel : Nat) :
    ∀ n, ∀ c ∈ natDecRevAux fuel n, c ≠ ',' := by
  induction fuel with
  | zero => simp [natDecRevAux]
  | succ fuel ih =>
      intro n c hc
      rw [natDecRevAux] at hc
      by_cases hn : n < 10
      · simp only [if_pos hn, List.mem_singleton] at hc
        exact hc ▸ decDigit_ne_comma n hn
      · simp only [if_neg hn, List.mem_cons] at hc
        rcases hc with hc | hc
        · exact hc ▸ decDigit_ne_comma _ (Nat.mod_lt n (by norm_num))
        · exact ih (n / 10) c hc

theorem digitChar_eq_decDigit (d : Nat) (h : d < 10) : Nat.digitChar d = decDigit d := by
  interval_cases d <;> rfl

/-- The fueled decimal worker agrees with the core library's digit
renderer, so `intDec` really is `str` on integers. -/
theorem toDigitsCore_eq_natDecRevAux (fuel : Nat) :
    ∀ n ds, Nat.toDigitsCore 10 fuel n ds = (natDecRevAux fuel n).reverse ++ ds := by
  induction fuel with
  | zero => intro n ds; rfl
  | succ fuel ih =>
      intro n ds
      by_cases hn : n < 10
      · have h0 : n / 10 = 0 := Nat.div_eq_of_lt hn
        simp [Nat.toDigitsCore, natDecRevAux, h0, hn, Nat.mod_eq_of_lt hn,
          digitChar_eq_decDigit n hn]
      · have h0 : n / 10 ≠ 0 := by
          intro hh
          exact hn ((Nat.div_eq_zero_iff (by norm_num)).mp hh)
        simp only [Nat.toDigitsCore, natDecRevAux, if_neg hn, if_neg h0]
        rw [ih]
        simp [digitChar_eq_decDigit _ (Nat.mod_lt n (by norm_num))]

theorem natRepr_eq (n : Nat) : Nat.repr n = (natDecRev n).reverse.asString := by
  unfold Nat.repr Nat.toDigits natDecRev
  rw [toDigitsCore_eq_natDecRevAux]
  simp

/-- `intDec` is Python's `str` on an integer, which is Lean's `toString`. -/
theorem intDec_eq_toString (n : Int) : intDec n = toString n := by
  cases n with
  | ofNat m =>
      show intDec (Int.ofNat m) = Nat.repr m
      unfold intDec
      rw [if_neg (by exact Int.not_lt.mpr (Int.ofNat_nonneg m)), natRepr_eq]
      exact str_empty_append _
  | negSucc m =>
      show intDec (Int.negSucc m) = "-" ++ Nat.repr (m + 1)
      unfold intDec
      rw [if_pos (Int.negSucc_lt_zero m), natRepr_eq]
      rfl

theorem chunk3_ne_nil (a : Char) (l : List Char) : chunk3 (a :: l) ≠ [] := by
  cases l with
  | nil => simp [chunk3]
  | cons b l2 => cases l2 <;> simp [chunk3]

/-- The comma-grouping of `f"{n:,}"` followed by `.replace(",", " ")` is
the spec's space-joined grouping into threes. -/
theorem digitsGroupedRev_map (l : List Char) (h : ∀ c ∈ l, c ≠ ',') :
    (digitsGroupedRev l).map commaToSpace = joinSpace (chunk3 l) := by
  induction l using digitsGroupedRev.induct with
  | case1 d1 d2 d3 d4 rest ih =>
      obtain ⟨g, gs, hg⟩ : ∃ g gs, chunk3 (d4 :: rest) = g :: gs := by
        cases hh : chunk3 (d4 :: rest) with
        | nil => exact absurd hh (chunk3_ne_nil _ _)
        | cons g gs => exact ⟨g, gs, rfl⟩
      have h4 : ∀ c ∈ d4 :: rest, c ≠ ',' := fun c hc => h c (by simp at hc ⊢; tauto)
      rw [digitsGroupedRev, chunk3, hg, joinSpace]
      simp only [List.map_cons]
      rw [ih h4, hg, commaToSpace_self (h d1 (by simp)), commaToSpace_self (h d2 (by simp)),
        commaToSpace_self (h d3 (by simp)), commaToSpace_comma]
      simp
  | case2 l hne =>
      rw [digitsGroupedRev.eq_def]
      split
      · exact absurd rfl (hne _ _ _ _ _)
      · rw [map_commaToSpace_self _ h]
        match l with
        | [] => rfl
        | [a] => rfl
        | [a, b] => rfl
        | [a, b, c] => rfl
        | a :: b :: c :: d :: t => exact absurd rfl (hne a b c d t)

/-- An element's rendering sits inside the concatenation of a rendered
list, with explicit text on both sides. -/
theorem strConcat_mem {α : Type} (f : α → String) (x : α) :
    ∀ l : List α, x ∈ l → ∃ a b : String, strConcat (l.map f) = a ++ (f x ++ b) := by
  intro l hx
  induction l with
  | nil => cases hx
  | cons y ys ih =>
      rcases List.mem_cons.mp hx with h | h
      · subst h
        exact ⟨"", strConcat (ys.map f), by rw [str_empty_append]; rfl⟩
      · obtain ⟨a, b, hab⟩ := ih h
        refine ⟨f y ++ a, b, ?_⟩
        show f y ++ strConcat (ys.map f) = _
        rw [hab, ← str_append_assoc]

/-- Every key the statistics loop produces came from its input key list. -/
theorem buildStatsAcc_keys (store : Store) :
    ∀ names acc, ((buildStatsAcc store names acc).1).map Prod.fst ⊆ acc.map Prod.fst ++ names := by
  intro names
  induction names with
  | nil =>
      intro acc
      simp [buildStatsAcc]
  | cons t ts ih =>
      intro acc
      rw [buildStatsAcc]
      cases store.rowCount t with
      | error m =>
          exact List.subset_append_left _ _
      | ok n =>
          refine (ih (acc ++ [(t, { row_count := n, sample_data := store.sampleData t })])).trans ?_
          simp

/-- Whatever the store does, the introspected schema is well-formed. -/
theorem getDatabaseSchema_wellFormed (store : Store) :
    wellFormedSchema (getDatabaseSchema store) := by
  unfold wellFormedSchema getDatabaseSchema
  cases store.listTables with
  | error m => simp [emptySchema]
  | ok names =>
      dsimp only
      rcases hb : buildTablesAcc store (sortNames names) [] with ⟨tabs, ok⟩
      cases ok
      · simp
      · dsimp only
        intro k hk
        have hsub := buildStatsAcc_keys store (tabs.map Prod.fst) []
        simpa using hsub (by simpa using hk)

/-- Each table's rendered block occurs inside the rendered prompt. -/
theorem renderTable_in_prompt (s : DbSchema) (t : String × TableEntry) (ht : t ∈ s.tables) :
    SubstrOf (renderTable t) (createSystemPrompt s) := by
  obtain ⟨a, b, hab⟩ := strConcat_mem renderTable t s.tables ht
  refine ⟨"Ты — экспертный SQL-анализатор.\n" ++ ("СХЕМА БАЗЫ ДАННЫХ:\n\n" ++ a),
    b ++ (examplesBlock ++ (rulesBlock ++ ("СТРУКТУРА ОТВЕТА: SQL-запрос, пустая строка, числовой ответ.\n" ++ "ВОПРОС ПОЛЬЗОВАТЕЛЯ: {user_question}\n"))), ?_⟩
  simp only [createSystemPrompt, schemaDescriptionOf, hab, str_append_assoc]


/-! ## The claims -/

/-- Claim C1, amended: a raw model output whose trimmed text splits on
blank-line separators into at least two segments, and whose trimmed first
segment case-insensitively begins with `"select "` and contains
`"from "`, parses successfully into exactly the trimmed first segment as
the SQL and the trimmed second segment — the text between the first and
second blank-line separators — as the suggested answer. -/
theorem c1_parse_returns_trimmed_segments (raw p0 p1 : String) (rest : List String)
    (hsplit : pySplitS (pyStripS raw) = p0 :: p1 :: rest)
    (hshape : isSelectShape (pyLowerS (pyStripS p0)) = true) :
    parseAndValidate raw = .ok (pyStripS p0, pyStripS p1) := by
  unfold parseAndValidate
  rw [hsplit]
  simp [hshape]

/-- Claim C1 fails as stated: on an output with two blank-line separators
the parser returns only the second segment as the suggested answer, not
everything after the first separator. -/
theorem c1_counterexample :
    parseAndValidate "select x from t\n\na\n\nb" = .ok ("select x from t", "a")
    ∧ specSuggestedAnswer "select x from t\n\na\n\nb" = "a\n\nb"
    ∧ ("a" : String) ≠ "a\n\nb" := by
  refine ⟨by decide, by decide, by decide⟩

/-- Concrete instance of the C1 theorem on a well-formed two-segment
output. -/
theorem c1_witness :
    pySplitS (pyStripS "SELECT COUNT(*) FROM videos;\n\n42")
      = ["SELECT COUNT(*) FROM videos;", "42"]
    ∧ isSelectShape (pyLowerS (pyStripS "SELECT COUNT(*) FROM videos;")) = true
    ∧ parseAndValidate "SELECT COUNT(*) FROM videos;\n\n42"
      = .ok ("SELECT COUNT(*) FROM videos;", "42") := by
  refine ⟨by decide, by decide, ?_⟩
  rw [c1_parse_returns_trimmed_segments "SELECT COUNT(*) FROM videos;\n\n42"
    "SELECT COUNT(*) FROM videos;" "42" [] (by decide) (by decide)]
  decide

/-- Claim C2: a two-segment output whose first segment does not have the
select/from shape is rejected as not-a-SELECT, the result has
`success = false` with the rejection message, and no statement is executed
against the store. -/
theorem c2_non_select_rejected (raw p0 p1 : String) (rest : List String)
    (runQuery : String → Except String (List SqlRow))
    (hsplit : pySplitS (pyStripS raw) = p0 :: p1 :: rest)
    (hshape : isSelectShape (pyLowerS (pyStripS p0)) = false) :
    parseAndValidate raw = .error .notSelect
    ∧ (generateSqlAndAnswer (.ok raw) runQuery).1.success = false
    ∧ (generateSqlAndAnswer (.ok raw) runQuery).1.error = some "Сгенерирован не SELECT запрос"
    ∧ (generateSqlAndAnswer (.ok raw) runQuery).2 = [] := by
  have hp : parseAndValidate raw = .error .notSelect := by
    unfold parseAndValidate
    rw [hsplit]
    simp [hshape]
  refine ⟨hp, ?_, ?_, ?_⟩ <;>
    simp [generateSqlAndAnswer, hp, failureResult, PipeError.message]

/-- Concrete instance of the C2 theorem on the spec's scenario D input. -/
theorem c2_witness :
    pySplitS (pyStripS "DROP TABLE videos;\n\n0") = ["DROP TABLE videos;", "0"]
    ∧ isSelectShape (pyLowerS (pyStripS "DROP TABLE videos;")) = false
    ∧ (parseAndValidate "DROP TABLE videos;\n\n0" = .error .notSelect
       ∧ (generateSqlAndAnswer (.ok "DROP TABLE videos;\n\n0") (fun _ => .ok [])).1.success = false
       ∧ (generateSqlAndAnswer (.ok "DROP TABLE videos;\n\n0") (fun _ => .ok [])).1.error
           = some "Сгенерирован не SELECT запрос"
       ∧ (generateSqlAndAnswer (.ok "DROP TABLE videos;\n\n0") (fun _ => .ok [])).2 = []) :=
  ⟨by decide, by decide,
    c2_non_select_rejected "DROP TABLE videos;\n\n0" "DROP TABLE videos;" "0" []
      (fun _ => .ok []) (by decide) (by decide)⟩

/-- Claim C3: a model output with no blank-line separator fails as
malformed; the result has `success = false`, the malformed-response
message, and the uniform user-facing failure string. -/
theorem c3_malformed_single_segment (raw : String)
    (runQuery : String → Except String (List SqlRow))
    (h : containsSubS (pyStripS raw) "\n\n" = false) :
    parseAndValidate raw = .error .malformed
    ∧ (generateSqlAndAnswer (.ok raw) runQuery).1.success = false
    ∧ (generateSqlAndAnswer (.ok raw) runQuery).1.error = some "Неверный формат ответа от LLM"
    ∧ (generateSqlAndAnswer (.ok raw) runQuery).1.final_answer
        = "Не удалось обработать запрос. Попробуйте сформулировать иначе." := by
  have hp : parseAndValidate raw = .error .malformed := by
    unfold parseAndValidate
    rw [pySplitS_no_sep _ h]
  refine ⟨hp, ?_, ?_, ?_⟩ <;>
    simp [generateSqlAndAnswer, hp, failureResult, PipeError.message]

/-- Concrete instance of the C3 theorem on a single-line output. -/
theorem c3_witness :
    containsSubS (pyStripS "SELECT COUNT(*) FROM videos;") "\n\n" = false
    ∧ (parseAndValidate "SELECT COUNT(*) FROM videos;" = .error .malformed
       ∧ (generateSqlAndAnswer (.ok "SELECT COUNT(*) FROM videos;") (fun _ => .ok [])).1.success = false
       ∧ (generateSqlAndAnswer (.ok "SELECT COUNT(*) FROM videos;") (fun _ => .ok [])).1.error
           = some "Неверный формат ответа от LLM"
       ∧ (generateSqlAndAnswer (.ok "SELECT COUNT(*) FROM videos;") (fun _ => .ok [])).1.final_answer
           = "Не удалось обработать запрос. Попробуйте сформулировать иначе.") :=
  ⟨by decide,
    c3_malformed_single_segment "SELECT COUNT(*) FROM videos;" (fun _ => .ok []) (by decide)⟩

/-- Claim C4: `_format_answer` renders NULL as the localized no-data
string; every numeric value at least 1000 — integer or float — with a
space as the thousands separator (the spec-side groupings
`specThousandsPos` and `specThousandsPosReal`), every numeric value
below 1000 as its plain decimal form, and text via its default string
form. -/
theorem c4_format_answer :
    formatAnswer .null = "Данные не найдены"
    ∧ formatAnswer (.int 999) = "999"
    ∧ formatAnswer (.int 1000) = "1 000"
    ∧ formatAnswer (.int 150000) = "150 000"
    ∧ (∀ n : Int, 1000 ≤ n → formatAnswer (.int n) = specThousandsPos n.natAbs)
    ∧ (∀ n : Int, n < 1000 → formatAnswer (.int n) = toString n)
    ∧ formatAnswer (.real ⟨false, 1234, "5"⟩) = "1 234.5"
    ∧ (∀ f : PyFloat, (∀ c ∈ f.frac.toList, c.isDigit = true) → pyFloatGe1000 f = true →
        formatAnswer (.real f) = specThousandsPosReal f)
    ∧ (∀ f : PyFloat, pyFloatGe1000 f = false → formatAnswer (.real f) = pyFloatStr f)
    ∧ (∀ s : String, formatAnswer (.text s) = s) := by
  refine ⟨rfl, by decide, by decide, by decide, ?_, ?_, by decide, ?_, ?_, fun s => rfl⟩
  · intro n hn
    show (if 1000 ≤ n then ((pyCommaFormat n).toList.map commaToSpace).asString else intDec n)
      = specThousandsPos n.natAbs
    rw [if_pos hn]
    unfold pyCommaFormat specThousandsPos
    rw [if_neg (by omega), str_empty_append, toList_asString, List.map_reverse,
      digitsGroupedRev_map (natDecRev n.natAbs) (natDecRevAux_no_comma (n.natAbs + 1) n.natAbs)]
  · intro n hn
    show (if 1000 ≤ n then ((pyCommaFormat n).toList.map commaToSpace).asString else intDec n)
      = toString n
    rw [if_neg (by omega)]
    exact intDec_eq_toString n
  · intro f hdig hge
    have hneg : f.neg = false := by
      have h := (Bool.and_eq_true _ _).mp hge
      simpa using h.1
    show (if pyFloatGe1000 f = true
          then ((pyFloatComma f).toList.map commaToSpace).asString else pyFloatStr f)
      = specThousandsPosReal f
    rw [if_pos hge]
    unfold pyFloatComma specThousandsPosReal
    rw [hneg, if_neg (by decide), str_empty_append, toList_append, toList_append,
      List.map_append, List.map_append, toList_asString, List.map_reverse,
      digitsGroupedRev_map (natDecRev f.intPart) (natDecRevAux_no_comma (f.intPart + 1) f.intPart),
      map_commaToSpace_self _ (fun c hc => isDigit_ne_comma (hdig c hc)),
      show (".".toList.map commaToSpace) = ".".toList from by decide,
      asString_append, asString_append, asString_toList]
    rfl
  · intro f hge
    show (if pyFloatGe1000 f = true
          then ((pyFloatComma f).toList.map commaToSpace).asString else pyFloatStr f)
      = pyFloatStr f
    rw [if_neg (by simp [hge])]

/-- Concrete instance of the C4 theorem's universal clauses, integer and
float. -/
theorem c4_witness :
    formatAnswer (.int 1234567) = specThousandsPos (1234567 : Int).natAbs
    ∧ formatAnswer (.int (-5)) = toString (-5 : Int)
    ∧ formatAnswer (.real ⟨false, 1234567, "25"⟩) = specThousandsPosReal ⟨false, 1234567, "25"⟩
    ∧ formatAnswer (.real ⟨false, 125, "5"⟩) = pyFloatStr ⟨false, 125, "5"⟩ :=
  ⟨c4_format_answer.2.2.2.2.1 1234567 (by decide),
   c4_format_answer.2.2.2.2.2.1 (-5) (by decide),
   c4_format_answer.2.2.2.2.2.2.2.1 ⟨false, 1234567, "25"⟩ (by decide) (by decide),
   c4_format_answer.2.2.2.2.2.2.2.2.1 ⟨false, 125, "5"⟩ (by decide)⟩

/-- Claim C5: the executor returns the first column of the first fetched
row, depends only on that first row, returns NULL on an empty result set,
and in that case the pipeline's final answer is the no-data string. -/
theorem c5_execute_first_row :
    (∀ (runQuery : String → Except String (List SqlRow)) (sql : String) (v : SqlValue)
        (cols : List SqlValue) (tail : List SqlRow),
        runQuery sql = .ok ((v, cols) :: tail) → executeSqlQuery runQuery sql = .ok v)
    ∧ (∀ rows1 rows2 : List SqlRow, rows1.head? = rows2.head? → firstScalar rows1 = firstScalar rows2)
    ∧ (∀ (runQuery : String → Except String (List SqlRow)) (sql : String),
        runQuery sql = .ok [] → executeSqlQuery runQuery sql = .ok .null)
    ∧ (∀ (runQuery : String → Except String (List SqlRow)) (raw p0 p1 : String) (rest : List String),
        pySplitS (pyStripS raw) = p0 :: p1 :: rest →
        isSelectShape (pyLowerS (pyStripS p0)) = true →
        runQuery (pyStripS p0) = .ok [] →
        (generateSqlAndAnswer (.ok raw) runQuery).1.final_answer = "Данные не найдены"
        ∧ (generateSqlAndAnswer (.ok raw) runQuery).1.actual_result = some .null) := by
  refine ⟨?_, ?_, ?_, ?_⟩
  · intro rq sql v cols tail h
    simp [executeSqlQuery, h, firstScalar]
  · intro r1 r2 h
    cases r1 with
    | nil =>
        cases r2 with
        | nil => rfl
        | cons b t2 => simp at h
    | cons a t1 =>
        cases r2 with
        | nil => simp at h
        | cons b t2 =>
            simp only [List.head?_cons, Option.some_inj] at h
            simp [firstScalar, h]
  · intro rq sql h
    simp [executeSqlQuery, h, firstScalar]
  · intro rq raw p0 p1 rest hs hv he
    have hp : parseAndValidate raw = .ok (pyStripS p0, pyStripS p1) := by
      unfold parseAndValidate
      rw [hs]
      simp [hv]
    refine ⟨?_, ?_⟩ <;>
      simp [generateSqlAndAnswer, hp, executeSqlQuery, he, firstScalar, formatAnswer]

/-- Concrete instance of the C5 theorem: a one-row result, and scenario B
(empty store, final answer is the no-data string). -/
theorem c5_witness :
    executeSqlQuery (fun _ => .ok [(.int 7, [])]) "select likes_count from videos" = .ok (.int 7)
    ∧ executeSqlQuery (fun _ => .ok []) "select likes_count from videos" = .ok .null
    ∧ ((generateSqlAndAnswer (.ok "select likes_count from videos\n\n7") (fun _ => .ok [])).1.final_answer
        = "Данные не найдены"
       ∧ (generateSqlAndAnswer (.ok "select likes_count from videos\n\n7") (fun _ => .ok [])).1.actual_result
        = some .null) :=
  ⟨c5_execute_first_row.1 (fun _ => .ok [(.int 7, [])]) "select likes_count from videos"
      (.int 7) [] [] rfl,
   c5_execute_first_row.2.2.1 (fun _ => .ok []) "select likes_count from videos" rfl,
   c5_execute_first_row.2.2.2 (fun _ => .ok []) "select likes_count from videos\n\n7"
      "select likes_count from videos" "7" [] (by decide) (by decide) rfl⟩

/-- Claim C6 fails as stated: `ORDER BY name` makes the introspector list
`snapshots` before `videos`, the reverse of declaration order, and the
rendered column line ignores the nullability flag. -/
theorem c6_counterexample :
    declaredTables.map Prod.fst = ["videos", "snapshots"]
    ∧ (getDatabaseSchema sqliteStore).tables.map Prod.fst = ["snapshots", "videos"]
    ∧ (["snapshots", "videos"] : List String) ≠ ["videos", "snapshots"]
    ∧ renderColumn ⟨"views_count", "INTEGER", false, true, "c"⟩
        = renderColumn ⟨"views_count", "INTEGER", false, false, "c"⟩
    ∧ (⟨"views_count", "INTEGER", false, true, "c"⟩ : ColumnEntry).nullable
        ≠ (⟨"views_count", "INTEGER", false, false, "c"⟩ : ColumnEntry).nullable :=
  ⟨by decide, by decide, by decide, rfl, by decide⟩

/-- Claim C6, amended: the prompt renders the schema deterministically in
ascending table-name order — for this store `snapshots` before `videos` —
and each column line carries the column's name, type, primary-key marker
and (non-empty) description; the nullability flag is introspected but not
rendered. -/
theorem c6_schema_rendering_amended :
    (getDatabaseSchema sqliteStore).tables.map Prod.fst = sortNames (declaredTables.map Prod.fst)
    ∧ (getDatabaseSchema sqliteStore).tables.map Prod.fst = ["snapshots", "videos"]
    ∧ pyStartsWith (strConcat ((getDatabaseSchema sqliteStore).tables.map renderTable))
        "ТАБЛИЦА: snapshots" = true
    ∧ (∀ col : ColumnEntry, SubstrOf col.name (renderColumn col))
    ∧ (∀ col : ColumnEntry, SubstrOf col.declType (renderColumn col))
    ∧ (∀ col : ColumnEntry, col.description ≠ "" → SubstrOf col.description (renderColumn col))
    ∧ (∀ (col : ColumnEntry) (b : Bool), renderColumn { col with nullable := b } = renderColumn col)
    ∧ (∀ (s : DbSchema) (t : String × TableEntry), t ∈ s.tables →
        SubstrOf (renderTable t) (createSystemPrompt s)) := by
  refine ⟨by decide, by decide, by decide, ?_, ?_, ?_, ?_, renderTable_in_prompt⟩
  · intro col
    refine ⟨"  - ", " (" ++ col.declType ++ ")"
      ++ (if col.primary_key then " [PRIMARY KEY]" else "")
      ++ (if col.description = "" then "" else ": " ++ col.description) ++ "\n", ?_⟩
    simp only [renderColumn, str_append_assoc]
  · intro col
    refine ⟨"  - " ++ col.name ++ " (", ")"
      ++ (if col.primary_key then " [PRIMARY KEY]" else "")
      ++ (if col.description = "" then "" else ": " ++ col.description) ++ "\n", ?_⟩
    simp only [renderColumn, str_append_assoc]
  · intro col h
    refine ⟨"  - " ++ col.name ++ " (" ++ col.declType ++ ")"
      ++ (if col.primary_key then " [PRIMARY KEY]" else "") ++ ": ", "\n", ?_⟩
    simp only [renderColumn, if_neg h, str_append_assoc]
  · intro col b
    cases col
    rfl

/-- Concrete instance of the C6 theorem's hypothesised clauses: a described
column's text occurs in its rendered line, and a table block occurs in the
prompt built from a one-table schema. -/
theorem c6_witness :
    SubstrOf "Идентификатор создателя видео"
      (renderColumn ⟨"creator_id", "TEXT", false, true, "Идентификатор создателя видео"⟩)
    ∧ SubstrOf (renderTable ("videos", ⟨[], "d"⟩))
        (createSystemPrompt ⟨[("videos", ⟨[], "d"⟩)], [], []⟩) :=
  ⟨c6_schema_rendering_amended.2.2.2.2.2.1
      ⟨"creator_id", "TEXT", false, true, "Идентификатор создателя видео"⟩ (by decide),
   c6_schema_rendering_amended.2.2.2.2.2.2.2
      ⟨[("videos", ⟨[], "d"⟩)], [], []⟩ ("videos", ⟨[], "d"⟩) (by simp)⟩

/-- Claim C7 fails as stated: a failure inside the statistics loop is
caught, but the returned schema holds the tables read before the failure —
it is not empty. -/
theorem c7_counterexample :
    lockedMidReadStore.rowCount "videos" = .error "database is locked"
    ∧ (getDatabaseSchema lockedMidReadStore).tables.map Prod.fst = ["videos"]
    ∧ (getDatabaseSchema lockedMidReadStore).tables ≠ []
    ∧ (getDatabaseSchema lockedMidReadStore).statistics = [] :=
  ⟨rfl, by decide, by decide, by decide⟩

/-- Claim C7, amended: every introspection failure is caught and the
schema accumulated so far returned — empty whenever connecting or listing
the tables fails — the result is always well-formed, and the analyzer is
constructible against any store. -/
theorem c7_introspection_failure_amended :
    (∀ (store : Store) (m : String), store.listTables = .error m →
        getDatabaseSchema store = emptySchema)
    ∧ (∀ store : Store, wellFormedSchema (getDatabaseSchema store))
    ∧ (∀ store : Store, analyzerInit store
        = (getDatabaseSchema store, createSystemPrompt (getDatabaseSchema store))) := by
  refine ⟨?_, getDatabaseSchema_wellFormed, fun store => rfl⟩
  intro store m h
  unfold getDatabaseSchema
  rw [h]

/-- Concrete instance of the C7 theorem on a store that cannot be read at
all: the analyzer still constructs, over the empty schema. -/
theorem c7_witness :
    missingStore.listTables = .error "unable to open database file"
    ∧ getDatabaseSchema missingStore = emptySchema :=
  ⟨rfl, c7_introspection_failure_amended.1 missingStore "unable to open database file" rfl⟩

/-- Claim C8: whatever the generation oracle and the engine do, the
request ends in a returned `GenerationResult` — a success with no error
message, or a failure carrying an error message and the uniform
user-facing failure string; no fault escapes the pipeline boundary. -/
theorem c8_errors_contained (llm : Except String String)
    (runQuery : String → Except String (List SqlRow)) :
    ((generateSqlAndAnswer llm runQuery).1.success = true
      ∧ (generateSqlAndAnswer llm runQuery).1.error = none)
    ∨ ((generateSqlAndAnswer llm runQuery).1.success = false
      ∧ (∃ m, (generateSqlAndAnswer llm runQuery).1.error = some m)
      ∧ (generateSqlAndAnswer llm runQuery).1.final_answer
          = "Не удалось обработать запрос. Попробуйте сформулировать иначе.") := by
  unfold generateSqlAndAnswer
  cases llm with
  | error m => right; simp [failureResult]
  | ok text =>
      cases hp : parseAndValidate text with
      | error e => right; simp [hp, failureResult]
      | ok pr =>
          obtain ⟨sql, ans⟩ := pr
          cases hex : executeSqlQuery runQuery sql with
          | error m => right; simp [hp, hex, failureResult]
          | ok v => left; simp [hp, hex]

/-- Claim C10: two model outputs that differ only in the suggested-answer
segment produce the same executed result and the same final answer — the
final answer is computed from the database alone. -/
theorem c10_answer_independent_of_suggestion
    (runQuery : String → Except String (List SqlRow))
    (out1 out2 p0 p1 p1' : String) (rest : List String)
    (h1 : pySplitS (pyStripS out1) = p0 :: p1 :: rest)
    (h2 : pySplitS (pyStripS out2) = p0 :: p1' :: rest) :
    (generateSqlAndAnswer (.ok out1) runQuery).1.actual_result
      = (generateSqlAndAnswer (.ok out2) runQuery).1.actual_result
    ∧ (generateSqlAndAnswer (.ok out1) runQuery).1.final_answer
      = (generateSqlAndAnswer (.ok out2) runQuery).1.final_answer := by
  cases hs : isSelectShape (pyLowerS (pyStripS p0)) with
  | false =>
      have hp1 : parseAndValidate out1 = .error .notSelect := by
        unfold parseAndValidate
        rw [h1]
        simp [hs]
      have hp2 : parseAndValidate out2 = .error .notSelect := by
        unfold parseAndValidate
        rw [h2]
        simp [hs]
      simp [generateSqlAndAnswer, hp1, hp2]
  | true =>
      have hp1 : parseAndValidate out1 = .ok (pyStripS p0, pyStripS p1) := by
        unfold parseAndValidate
        rw [h1]
        simp [hs]
      have hp2 : parseAndValidate out2 = .ok (pyStripS p0, pyStripS p1') := by
        unfold parseAndValidate
        rw [h2]
        simp [hs]
      cases hex : executeSqlQuery runQuery (pyStripS p0) <;>
        simp [generateSqlAndAnswer, hp1, hp2, hex]

/-- Concrete instance of the C10 theorem: same SQL segment, different
suggested numbers, identical executed result and final answer. -/
theorem c10_witness :
    pySplitS (pyStripS "select count(*) from videos\n\n5")
      = ["select count(*) from videos", "5"]
    ∧ pySplitS (pyStripS "select count(*) from videos\n\n999")
      = ["select count(*) from videos", "999"]
    ∧ ((generateSqlAndAnswer (.ok "select count(*) from videos\n\n5")
          (fun _ => .ok [(.int 3, [])])).1.actual_result
        = (generateSqlAndAnswer (.ok "select count(*) from videos\n\n999")
          (fun _ => .ok [(.int 3, [])])).1.actual_result
       ∧ (generateSqlAndAnswer (.ok "select count(*) from videos\n\n5")
          (fun _ => .ok [(.int 3, [])])).1.final_answer
        = (generateSqlAndAnswer (.ok "select count(*) from videos\n\n999")
          (fun _ => .ok [(.int 3, [])])).1.final_answer) :=
  ⟨by decide, by decide,
    c10_answer_independent_of_suggestion (fun _ => .ok [(.int 3, [])])
      "select count(*) from videos\n\n5" "select count(*) from videos\n\n999"
      "select count(*) from videos" "5" "999" [] (by decide) (by decide)⟩

end VideoBot
